import Mathlib

/-!
Shallow embedding of the SpecScan backend analyze pipeline
(src/backend/server.js): the multer ingress layer (file-type filter and
10 MiB size limit), the `POST /api/analyze` handler (file-presence check,
placeholder-configuration check, per-item dispatch loop with per-item
error capture, aggregation), and the outer remote-error translator.

JavaScript truthiness conventions used by the source (`x || y`,
`x?.y || null`) are embedded explicitly: absent values are `Option.none`,
the empty string and the number 0 are falsy.  Provider-defined detection
fields are opaque (modelled as a `String` payload); numbers are `Nat`.
-/

namespace SpecScan

/-- JS `a || b` where `a` is an optional string: `undefined`/`null` and
the empty string are falsy and select the default `b`. -/
def jsOrS : Option String → String → String
  | some s, d => if s = "" then d else s
  | none, d => d

/-- JS `a || b` where both sides are optional strings (used for the
`data?.message || data?.error || message` chain). -/
def jsOrO : Option String → Option String → Option String
  | some s, d => if s = "" then d else some s
  | none, d => d

/-- JS `x || null` on an optional number: absent and `0` are falsy and
become `null`. -/
def jsNumOrNull : Option Nat → Option Nat
  | some n => if n = 0 then none else some n
  | none => none

/-- JS `x || d` on an optional number with a numeric default
(`error.response.status || 500`). -/
def jsNumOr : Option Nat → Nat → Nat
  | some n, d => if n = 0 then d else n
  | none, d => d

/-- Contiguous occurrence of `pat` at some position of a character
list, by structural recursion. -/
def hasInfix (pat : List Char) : List Char → Bool
  | [] => pat.isEmpty
  | c :: cs => pat.isPrefixOf (c :: cs) || hasInfix pat cs

/-- Substring occurrence, stated over the character lists so that it
evaluates by structural recursion: `pat` occurs contiguously in `s`. -/
def mentions (s pat : String) : Bool :=
  hasInfix pat.data s.data

/-- One uploaded file as multer presents it to the handler: declared
media type (`mimetype`), optional original filename, and byte size.
The raw byte payload itself never influences control flow in the
backend, so it is not modelled. -/
structure UploadItem where
  originalname : Option String
  mimetype : String
  size : Nat
  deriving Repr, DecidableEq

/-- Optional image-dimension metadata of a remote success response
(`response.data.image`). -/
structure RemoteImage where
  width : Option Nat
  height : Option Nat
  deriving Repr, DecidableEq

/-- A well-formed remote success body: `predictions` and `image` are both
defensively optional. A provider prediction is opaque to the backend
(spread unchanged by `...p`), so it is modelled as a `String` payload. -/
structure RemoteReply where
  predictions : Option (List String)
  image : Option RemoteImage
  deriving Repr, DecidableEq

/-- The outcome of one axios call to the remote inference endpoint, as
seen by the per-item try/catch: a success body, or a thrown error whose
`.message` may be absent. -/
inductive RemoteCall where
  | ok (reply : RemoteReply)
  | err (message : Option String)
  deriving Repr, DecidableEq

/-- One detection after the backend stamps it with provenance: the
opaque provider payload plus `imageIndex` and `imageName`. -/
structure Detection where
  payload : String
  imageIndex : Nat
  imageName : String
  deriving Repr, DecidableEq

/-- One entry of the per-image `results` list. The success branch sets
`error := none`; the failure branch sets `predictions := []` and carries
a message (the failure object in the source has no width/height fields, which
is rendered here as `none`). -/
structure ItemResult where
  imageIndex : Nat
  imageName : String
  predictions : List Detection
  error : Option String
  image_width : Option Nat
  image_height : Option Nat
  deriving Repr, DecidableEq

/-- `file.originalname || ` backtick-free fallback name
(`image_` + (i+1) + `.jpg`), exactly as built in both branches of the
loop body. -/
def itemName (i : Nat) (f : UploadItem) : String :=
  jsOrS f.originalname ("image_" ++ toString (i + 1) ++ ".jpg")

/-- Body of the per-item dispatch loop (server.js lines 126-170): on a
success reply, extract `predictions` (defaulting to `[]`), stamp each
with the index and name of the item, and read optional dimensions through
`?.width || null`; on a caught error, record a failure entry with an
empty prediction list and the captured message, defaulted when absent to
the generic fallback Failed to process image. -/
def processItem (i : Nat) (f : UploadItem) : RemoteCall → ItemResult
  | .ok reply =>
    { imageIndex := i
      imageName := itemName i f
      predictions := (reply.predictions.getD []).map fun p =>
        { payload := p, imageIndex := i, imageName := itemName i f }
      error := none
      image_width := jsNumOrNull (reply.image.bind RemoteImage.width)
      image_height := jsNumOrNull (reply.image.bind RemoteImage.height) }
  | .err msg =>
    { imageIndex := i
      imageName := itemName i f
      predictions := []
      error := some (jsOrS msg "Failed to process image")
      image_width := none
      image_height := none }

/-- The sequential `for` loop over `files`, with `s` the index of the
first remaining file: one remote call per item, results pushed in index
order. The remote service is an oracle mapping an index and file to the
outcome of that call, so a single run fixes which of the N calls fail. -/
def dispatchFrom (remote : Nat → UploadItem → RemoteCall) :
    Nat → List UploadItem → List ItemResult
  | _, [] => []
  | s, f :: fs => processItem s f (remote s f) :: dispatchFrom remote (s + 1) fs

/-- The whole dispatch loop, starting at index 0. -/
def dispatchAll (files : List UploadItem) (remote : Nat → UploadItem → RemoteCall) :
    List ItemResult :=
  dispatchFrom remote 0 files

/-- The multer `fileFilter`: accept only files whose declared media type
starts with `image/` (the JS `startsWith`, stated over the character
lists so that it evaluates by structural recursion). -/
def isImageType (f : UploadItem) : Bool :=
  "image/".data.isPrefixOf f.mimetype.data

/-- The multer `limits.fileSize` bound: 10 * 1024 * 1024 bytes; a file
strictly larger than the limit triggers `LIMIT_FILE_SIZE`. -/
def withinSizeLimit (f : UploadItem) : Bool :=
  f.size ≤ 10 * 1024 * 1024

/-- The two multer failure modes configured in server.js: the
`fileFilter` rejection (`Only image files are allowed`) and the
`LIMIT_FILE_SIZE` limit error. -/
inductive MulterErr where
  | filterRejection
  | limitFileSize
  deriving Repr, DecidableEq

/-- Multer consumes the multipart parts in submission order and aborts at
the first failure; for each file the `fileFilter` decision happens before
the file body is buffered, so a type rejection on a file precedes a size
overrun on that same file. -/
def multerScan : List UploadItem → Option MulterErr
  | [] => none
  | f :: fs =>
    if ¬ isImageType f then some .filterRejection
    else if ¬ withinSizeLimit f then some .limitFileSize
    else multerScan fs

/-- The process-wide remote configuration: `ROBOFLOW_API_KEY` and
`ROBOFLOW_MODEL_ID` after the `|| placeholder` defaulting. -/
structure Config where
  apiKey : String
  modelId : String
  deriving Repr, DecidableEq

/-- `process.env.X || placeholder` defaulting for the two variables. -/
def configFromEnv (envKey envModelId : Option String) : Config :=
  { apiKey := jsOrS envKey "YOUR_KEY_HERE"
    modelId := jsOrS envModelId "YOUR_MODEL_ID_HERE" }

/-- The API-configured check of server.js lines 109-110, negated: the
handler rejects when either value equals its placeholder or is empty
(JS `!string`). -/
def apiConfigured (c : Config) : Bool :=
  ¬ (c.apiKey = "YOUR_KEY_HERE" ∨ c.modelId = "YOUR_MODEL_ID_HERE" ∨
     c.apiKey = "" ∨ c.modelId = "")

/-- The aggregated 200 body built at server.js lines 177-184. -/
structure AnalysisResponse where
  success : Bool
  area : String
  results : List ItemResult
  predictions : List Detection
  image_count : Nat
  total_defects : Nat
  deriving Repr, DecidableEq

/-- An HTTP reply of the analyze route: a JSON error body with a status
code, the aggregated 200 analysis body, or the translated remote-error
body (whose JSON `error` field is the constant `Roboflow API error`). -/
inductive Resp where
  | jsonError (status : Nat) (error : String) (message : String)
  | analysis (body : AnalysisResponse)
  | remoteError (status : Nat) (message : Option String) (statusText : String)
      (roboflowError : Option String)
  deriving Repr, DecidableEq

/-- HTTP status code of a reply. -/
def Resp.status : Resp → Nat
  | .jsonError s _ _ => s
  | .analysis _ => 200
  | .remoteError s _ _ _ => s

/-- The `message` field of a reply, when present. -/
def Resp.messageOf : Resp → Option String
  | .jsonError _ _ m => some m
  | .analysis _ => none
  | .remoteError _ m _ _ => m

/-- Whether a reply is the aggregated 200 analysis body. -/
def Resp.isAnalysis : Resp → Bool
  | .analysis _ => true
  | _ => false

/-- The `success` flag of a reply (error replies carry none; read as
`false`). -/
def Resp.successOf : Resp → Bool
  | .analysis b => b.success
  | _ => false

/-- The per-image `results` list of a reply (empty for error replies). -/
def Resp.resultsOf : Resp → List ItemResult
  | .analysis b => b.results
  | _ => []

/-- The flattened `predictions` list of a reply (empty for error
replies). -/
def Resp.predictionsOf : Resp → List Detection
  | .analysis b => b.predictions
  | _ => []

/-- The `image_count` field of a reply (0 for error replies). -/
def Resp.imageCountOf : Resp → Nat
  | .analysis b => b.image_count
  | _ => 0

/-- The `total_defects` field of a reply (0 for error replies). -/
def Resp.totalDefectsOf : Resp → Nat
  | .analysis b => b.total_defects
  | _ => 0

/-- An incoming analyze request after multipart parsing: the ordered
file list (`upload.any()` puts all parts in `req.files`) and the
optional `area` text field. -/
structure AnalyzeRequest where
  files : List UploadItem
  area : Option String
  deriving Repr, DecidableEq

/-- The whole analyze route (server.js lines 67-184): multer wrapper
first (type / size errors become 400s), then the file-presence check,
then the configuration check, then the per-item dispatch loop and the
aggregation.  `remote` is the remote-service oracle for this request. -/
def analyze (cfg : Config) (req : AnalyzeRequest)
    (remote : Nat → UploadItem → RemoteCall) : Resp :=
  match multerScan req.files with
  | some .filterRejection =>
      .jsonError 400 "Invalid file type" "Only image files are allowed"
  | some .limitFileSize =>
      .jsonError 400 "File too large" "Image must be less than 10MB"
  | none =>
    if req.files.length = 0 then
      .jsonError 400 "No images provided" "Please upload at least one image file"
    else if ¬ apiConfigured cfg then
      .jsonError 500 "API not configured"
        "Please set ROBOFLOW_API_KEY and ROBOFLOW_MODEL_ID in your .env file"
    else
      let results := dispatchAll req.files remote
      let allPredictions := results.flatMap ItemResult.predictions
      .analysis
        { success := true
          area := jsOrS req.area "unknown"
          results := results
          predictions := allPredictions
          image_count := results.length
          total_defects := allPredictions.length }

/-- The remote-supplied body attached to an axios error
(`error.response.data`). -/
structure RemoteData where
  message : Option String
  error : Option String
  deriving Repr, DecidableEq

/-- `error.response` of an axios error: status, status text and body,
each possibly absent. -/
structure ErrResponse where
  status : Option Nat
  statusText : Option String
  data : Option RemoteData
  deriving Repr, DecidableEq

/-- An error object reaching the outer catch of the analyze handler. -/
structure CaughtError where
  response : Option ErrResponse
  code : Option String
  message : Option String
  deriving Repr, DecidableEq

/-- JS template-literal rendering of a possibly-undefined string. -/
def renderOpt : Option String → String
  | some s => s
  | none => "undefined"

/-- Effective status of a remote error: `error.response.status || 500`. -/
def effStatus (r : ErrResponse) : Nat :=
  jsNumOr r.status 500

/-- The message-extraction chain
`error.response.data?.message || error.response.data?.error || error.message`. -/
def errorMessageOf (e : CaughtError) (r : ErrResponse) : Option String :=
  jsOrO (r.data.bind RemoteData.message)
    (jsOrO (r.data.bind RemoteData.error) e.message)

/-- The fixed template of the enriched 403 guidance message built at
server.js lines 199-204, up to the interpolated error details. -/
def forbiddenFixed : String :=
  "Access forbidden. Possible issues:\n" ++
  "1. Invalid API key - Check your Roboflow API key in .env file\n" ++
  "2. API key doesn\x27t have permission for this model\n" ++
  "3. Model ID might be incorrect - Format should be: project-name/version-number\n" ++
  "4. Model might not be deployed or public\n\n" ++
  "Error details: "

/-- The enriched 403 guidance message: the fixed template followed by
the interpolated remote error details. -/
def forbiddenMessage (errorMessage : Option String) : String :=
  forbiddenFixed ++ renderOpt errorMessage

/-- The literal 401 message of server.js line 206. -/
def unauthorizedMessage : String :=
  "Unauthorized. Check your Roboflow API key in .env file."

/-- The literal 404 message of server.js line 208. -/
def notFoundMessage : String :=
  "Model not found. Check your MODEL_ID in .env file. Format: project-name/version-number"

/-- The outer catch of the analyze handler (server.js lines 186-231):
an error with a `response` becomes a translated Roboflow-API-error
reply; `LIMIT_FILE_SIZE` becomes a 400; anything else a generic 500. -/
def handleOuterError (e : CaughtError) : Resp :=
  match e.response with
  | some r =>
    let status := effStatus r
    let statusText := jsOrS r.statusText "Unknown error"
    let errorMessage := errorMessageOf e r
    let userMessage : Option String :=
      if status = 403 then some (forbiddenMessage errorMessage)
      else if status = 401 then some unauthorizedMessage
      else if status = 404 then some notFoundMessage
      else errorMessage
    .remoteError status userMessage statusText errorMessage
  | none =>
    if e.code = some "LIMIT_FILE_SIZE" then
      .jsonError 400 "File too large" "Image must be less than 10MB"
    else
      .jsonError 500 "Internal server error" (jsOrS e.message "Failed to analyze image")

/-! ## Sample data used by the concrete witnesses -/

/-- A small valid image upload. -/
def sampleImageA : UploadItem := ⟨some "a.jpg", "image/jpeg", 1000⟩

/-- A second small valid image upload. -/
def sampleImageB : UploadItem := ⟨some "b.png", "image/png", 2000⟩

/-- A valid-type image upload one byte over the 10 MiB limit. -/
def sampleOversized : UploadItem := ⟨some "big.jpg", "image/jpeg", 10 * 1024 * 1024 + 1⟩

/-- A small non-image upload. -/
def sampleText : UploadItem := ⟨some "notes.txt", "text/plain", 5⟩

/-- A non-image upload that also exceeds the size limit. -/
def sampleHugeText : UploadItem := ⟨some "huge.txt", "text/plain", 11534336⟩

/-- A fully configured remote identity. -/
def sampleConfig : Config := ⟨"k123", "proj/3"⟩

/-- A configuration still carrying the key placeholder. -/
def samplePlaceholderConfig : Config := ⟨"YOUR_KEY_HERE", "proj/3"⟩

/-- A remote oracle that fails on the first item and succeeds with two
detections (and 640 x 480 metadata) on every other item. -/
def sampleRemote : Nat → UploadItem → RemoteCall := fun i _ =>
  if i = 0 then .err (some "boom")
  else .ok ⟨some ["p1", "p2"], some ⟨some 640, some 480⟩⟩

/-- A remote oracle that always succeeds with one detection. -/
def sampleRemoteOk : Nat → UploadItem → RemoteCall := fun _ _ =>
  .ok ⟨some ["q"], none⟩

/-! ## Helper lemmas about the dispatch loop -/

/-- The loop pushes exactly one outcome per file. -/
lemma dispatchFrom_length (remote : Nat → UploadItem → RemoteCall)
    (files : List UploadItem) : ∀ s, (dispatchFrom remote s files).length = files.length := by
  induction files with
  | nil => intro s; rfl
  | cons f fs ih => intro s; simp [dispatchFrom, ih]

/-- The `i`-th outcome of the loop started at `s` is the processed
`i`-th file, dispatched at index `s + i`. -/
lemma dispatchFrom_getElem? (remote : Nat → UploadItem → RemoteCall)
    (files : List UploadItem) :
    ∀ s i, (dispatchFrom remote s files)[i]? =
      files[i]?.map fun f => processItem (s + i) f (remote (s + i) f) := by
  induction files with
  | nil => intro s i; simp [dispatchFrom]
  | cons f fs ih =>
    intro s i
    cases i with
    | zero => simp [dispatchFrom]
    | succ i =>
      have harith : s + 1 + i = s + (i + 1) := by omega
      simp [dispatchFrom, ih (s + 1) i, harith]

/-- Every member of the output of the loop is the processed form of some
input file, at its dispatch index. -/
lemma mem_dispatchFrom (remote : Nat → UploadItem → RemoteCall)
    (files : List UploadItem) :
    ∀ s r, r ∈ dispatchFrom remote s files →
      ∃ i f, files[i]? = some f ∧ r = processItem (s + i) f (remote (s + i) f) := by
  induction files with
  | nil => intro s r h; simp [dispatchFrom] at h
  | cons f fs ih =>
    intro s r h
    rw [dispatchFrom, List.mem_cons] at h
    rcases h with rfl | h
    · exact ⟨0, f, by simp, by simp⟩
    · obtain ⟨i, f', hf', hr⟩ := ih (s + 1) r h
      have harith : s + 1 + i = s + (i + 1) := by omega
      exact ⟨i + 1, f', by simpa using hf', by rw [hr, harith]⟩

/-- Each outcome carries the index it was dispatched at. -/
lemma processItem_imageIndex (i : Nat) (f : UploadItem) (c : RemoteCall) :
    (processItem i f c).imageIndex = i := by
  cases c <;> rfl

/-- Each outcome carries the effective name of its item. -/
lemma processItem_imageName (i : Nat) (f : UploadItem) (c : RemoteCall) :
    (processItem i f c).imageName = itemName i f := by
  cases c <;> rfl

/-- An outcome that carries an error message has an empty detection
list (the failure branch pushes `predictions: []`). -/
lemma processItem_failure_empty (i : Nat) (f : UploadItem) (c : RemoteCall)
    (h : (processItem i f c).error.isNone = false) :
    (processItem i f c).predictions = [] := by
  cases c with
  | ok reply => simp [processItem] at h
  | err msg => rfl

/-- Flattening the whole results list equals flattening only the
successful results, whenever failed results contribute no detections. -/
lemma flatMap_filter_success (l : List ItemResult)
    (h : ∀ r ∈ l, r.error.isNone = false → r.predictions = []) :
    (l.filter fun r => r.error.isNone).flatMap ItemResult.predictions =
      l.flatMap ItemResult.predictions := by
  induction l with
  | nil => rfl
  | cons r rs ih =>
    have hr := h r (List.mem_cons_self r rs)
    have hrs := fun x hx => h x (List.mem_cons_of_mem r hx)
    cases hb : r.error.isNone with
    | true => simp [List.filter_cons, hb, ih hrs]
    | false => simp [List.filter_cons, hb, ih hrs, hr hb]

/-- On a request that passes multer, carries at least one file and meets
a complete configuration, the route reaches the aggregation branch. -/
lemma analyze_configured_eq (cfg : Config) (files : List UploadItem)
    (area : Option String) (remote : Nat → UploadItem → RemoteCall)
    (hscan : multerScan files = none) (hne : files ≠ [])
    (hcfg : apiConfigured cfg = true) :
    analyze cfg ⟨files, area⟩ remote = .analysis
      { success := true
        area := jsOrS area "unknown"
        results := dispatchAll files remote
        predictions := (dispatchAll files remote).flatMap ItemResult.predictions
        image_count := (dispatchAll files remote).length
        total_defects := ((dispatchAll files remote).flatMap ItemResult.predictions).length } := by
  have hlen : ¬ files.length = 0 := by
    intro h
    exact hne (List.length_eq_zero.mp h)
  simp [analyze, hscan, hlen, hcfg]

/-- Predicate matching the provenance pair carried by a detection
against a results entry. -/
def provMatch (n : Nat) (nm : String) (r : ItemResult) : Bool :=
  r.imageIndex == n && r.imageName == nm

/-- A loop started above `n` produces no entry with image index `n`. -/
lemma countP_dispatchFrom_high (remote : Nat → UploadItem → RemoteCall)
    (nm : String) (n : Nat) (files : List UploadItem) :
    ∀ s, n < s → (dispatchFrom remote s files).countP (provMatch n nm) = 0 := by
  induction files with
  | nil => intro s _; rfl
  | cons f fs ih =>
    intro s hs
    rw [dispatchFrom, List.countP_cons]
    have hhead : provMatch n nm (processItem s f (remote s f)) = false := by
      simp [provMatch, processItem_imageIndex]
      intro h
      omega
    rw [ih (s + 1) (by omega), hhead]
    simp

/-- Exactly the entry dispatched at index `s + i` can match image index
`s + i`; it does iff its effective name matches. -/
lemma countP_dispatchFrom_at (remote : Nat → UploadItem → RemoteCall)
    (nm : String) (files : List UploadItem) :
    ∀ s i f, files[i]? = some f →
      (dispatchFrom remote s files).countP (provMatch (s + i) nm) =
        if itemName (s + i) f == nm then 1 else 0 := by
  induction files with
  | nil => intro s i f h; simp at h
  | cons g gs ih =>
    intro s i f h
    cases i with
    | zero =>
      rw [List.getElem?_cons_zero, Option.some_inj] at h
      subst h
      rw [dispatchFrom, List.countP_cons]
      have htail : (dispatchFrom remote (s + 1) gs).countP (provMatch (s + 0) nm) = 0 :=
        countP_dispatchFrom_high remote nm (s + 0) gs (s + 1) (by omega)
      rw [htail]
      simp [provMatch, processItem_imageIndex, processItem_imageName]
    | succ i =>
      rw [List.getElem?_cons_succ] at h
      have harith : s + 1 + i = s + (i + 1) := by omega
      have hhead : provMatch (s + (i + 1)) nm (processItem s g (remote s g)) = false := by
        simp [provMatch, processItem_imageIndex]
      rw [dispatchFrom, List.countP_cons, hhead]
      have := ih (s + 1) i f h
      rw [harith] at this
      rw [this]
      simp

/-- Files that pass both per-file checks do not affect the multer scan
of the files that follow them. -/
lemma multerScan_append_valid (pre l : List UploadItem)
    (hpre : ∀ f ∈ pre, isImageType f = true ∧ withinSizeLimit f = true) :
    multerScan (pre ++ l) = multerScan l := by
  induction pre with
  | nil => rfl
  | cons f fs ih =>
    obtain ⟨h1, h2⟩ := hpre f (List.mem_cons_self f fs)
    have := ih fun x hx => hpre x (List.mem_cons_of_mem f hx)
    simp [multerScan, h1, h2, this]

/-! ## Claims -/

/-- Claim C1: for every request with N valid image files of which any
subset of the remote calls fail, the response is HTTP 200 with
`success = true`, `results` has length N, `image_count` = N,
`predictions` is the in-order flattening of the per-item detection
lists (equivalently, of the detection lists of successful items, since
failed items contribute none), and `total_defects` is the length of
that flattened list. -/
theorem analyze_keeps_batch_on_item_failures (cfg : Config)
    (files : List UploadItem) (area : Option String)
    (remote : Nat → UploadItem → RemoteCall)
    (hscan : multerScan files = none) (hne : files ≠ [])
    (hcfg : apiConfigured cfg = true) :
    (analyze cfg ⟨files, area⟩ remote).isAnalysis = true ∧
    (analyze cfg ⟨files, area⟩ remote).status = 200 ∧
    (analyze cfg ⟨files, area⟩ remote).successOf = true ∧
    (analyze cfg ⟨files, area⟩ remote).resultsOf.length = files.length ∧
    (analyze cfg ⟨files, area⟩ remote).imageCountOf = files.length ∧
    (analyze cfg ⟨files, area⟩ remote).predictionsOf =
      (analyze cfg ⟨files, area⟩ remote).resultsOf.flatMap ItemResult.predictions ∧
    (analyze cfg ⟨files, area⟩ remote).predictionsOf =
      ((analyze cfg ⟨files, area⟩ remote).resultsOf.filter
        fun r => r.error.isNone).flatMap ItemResult.predictions ∧
    (analyze cfg ⟨files, area⟩ remote).totalDefectsOf =
      (analyze cfg ⟨files, area⟩ remote).predictionsOf.length := by
  rw [analyze_configured_eq cfg files area remote hscan hne hcfg]
  have hfail : ∀ r ∈ dispatchAll files remote, r.error.isNone = false →
      r.predictions = [] := by
    intro r hr herr
    obtain ⟨i, f, _, rfl⟩ := mem_dispatchFrom remote files 0 r hr
    exact processItem_failure_empty _ _ _ herr
  refine ⟨rfl, rfl, rfl, ?_, ?_, rfl, ?_, rfl⟩
  · simpa [Resp.resultsOf, dispatchAll] using dispatchFrom_length remote files 0
  · simpa [Resp.imageCountOf, dispatchAll] using dispatchFrom_length remote files 0
  · simpa [Resp.predictionsOf, Resp.resultsOf] using
      (flatMap_filter_success (dispatchAll files remote) hfail).symm

/-- Concrete run for claim C1: two valid images, the first remote call
fails, the second succeeds with two detections. -/
theorem analyze_keeps_batch_on_item_failures_witness :
    (analyze sampleConfig ⟨[sampleImageA, sampleImageB], none⟩ sampleRemote).isAnalysis = true ∧
    (analyze sampleConfig ⟨[sampleImageA, sampleImageB], none⟩ sampleRemote).status = 200 ∧
    (analyze sampleConfig ⟨[sampleImageA, sampleImageB], none⟩ sampleRemote).successOf = true ∧
    (analyze sampleConfig ⟨[sampleImageA, sampleImageB], none⟩ sampleRemote).resultsOf.length = 2 ∧
    (analyze sampleConfig ⟨[sampleImageA, sampleImageB], none⟩ sampleRemote).imageCountOf = 2 ∧
    (analyze sampleConfig ⟨[sampleImageA, sampleImageB], none⟩ sampleRemote).predictionsOf =
      (analyze sampleConfig ⟨[sampleImageA, sampleImageB], none⟩ sampleRemote).resultsOf.flatMap
        ItemResult.predictions ∧
    (analyze sampleConfig ⟨[sampleImageA, sampleImageB], none⟩ sampleRemote).predictionsOf =
      ((analyze sampleConfig ⟨[sampleImageA, sampleImageB], none⟩ sampleRemote).resultsOf.filter
        fun r => r.error.isNone).flatMap ItemResult.predictions ∧
    (analyze sampleConfig ⟨[sampleImageA, sampleImageB], none⟩ sampleRemote).totalDefectsOf =
      (analyze sampleConfig ⟨[sampleImageA, sampleImageB], none⟩ sampleRemote).predictionsOf.length :=
  analyze_keeps_batch_on_item_failures sampleConfig [sampleImageA, sampleImageB] none
    sampleRemote (by decide) (by decide) (by decide)

/-- Claim C2: dispatch yields exactly one outcome per item, in
submission order (the j-th outcome is the processed j-th file at index
j, for every j), and an item whose remote call fails is captured as a
failure entry carrying a message and an empty prediction list while
every other item is still processed from its own file and call alone. -/
theorem dispatch_isolation (files : List UploadItem)
    (remote : Nat → UploadItem → RemoteCall) (i : Nat) (msg : Option String)
    (h : i < files.length)
    (hfail : remote i (files.get ⟨i, h⟩) = .err msg) :
    (dispatchAll files remote).length = files.length ∧
    (∀ j (hj : j < files.length),
      (dispatchAll files remote)[j]? =
        some (processItem j (files.get ⟨j, hj⟩) (remote j (files.get ⟨j, hj⟩)))) ∧
    (dispatchAll files remote)[i]? = some
      { imageIndex := i
        imageName := itemName i (files.get ⟨i, h⟩)
        predictions := []
        error := some (jsOrS msg "Failed to process image")
        image_width := none
        image_height := none } := by
  have hget : ∀ j (hj : j < files.length),
      (dispatchAll files remote)[j]? =
        some (processItem j (files.get ⟨j, hj⟩) (remote j (files.get ⟨j, hj⟩))) := by
    intro j hj
    rw [dispatchAll, dispatchFrom_getElem? remote files 0 j,
      List.getElem?_eq_getElem hj]
    simp [List.get_eq_getElem]
  refine ⟨by simpa [dispatchAll] using dispatchFrom_length remote files 0, hget, ?_⟩
  rw [hget i h, hfail]
  rfl

/-- Concrete run for claim C2: the remote call of the first item fails with
message `boom`; it is captured in place and the second item is still
processed. -/
theorem dispatch_isolation_witness :
    (dispatchAll [sampleImageA, sampleImageB] sampleRemote).length = 2 ∧
    (dispatchAll [sampleImageA, sampleImageB] sampleRemote)[0]? = some
      { imageIndex := 0
        imageName := "a.jpg"
        predictions := []
        error := some "boom"
        image_width := none
        image_height := none } := by
  have h := dispatch_isolation [sampleImageA, sampleImageB] sampleRemote 0 (some "boom")
    (by decide) rfl
  exact ⟨h.1, h.2.2⟩

/-- Claim C3: every detection in the flattened predictions list of a
200 analysis response matches exactly one entry of the results list on
its `imageIndex`/`imageName` provenance pair. -/
theorem predictions_provenance (cfg : Config) (files : List UploadItem)
    (area : Option String) (remote : Nat → UploadItem → RemoteCall)
    (hscan : multerScan files = none) (hne : files ≠ [])
    (hcfg : apiConfigured cfg = true) (d : Detection)
    (hd : d ∈ (analyze cfg ⟨files, area⟩ remote).predictionsOf) :
    (analyze cfg ⟨files, area⟩ remote).resultsOf.countP
      (provMatch d.imageIndex d.imageName) = 1 := by
  rw [analyze_configured_eq cfg files area remote hscan hne hcfg] at hd ⊢
  simp only [Resp.predictionsOf, Resp.resultsOf] at hd ⊢
  obtain ⟨r, hr, hdr⟩ := List.mem_flatMap.mp hd
  obtain ⟨i, f, hf, rfl⟩ := mem_dispatchFrom remote files 0 r hr
  rw [Nat.zero_add] at hdr
  cases hc : remote i f with
  | err msg =>
    rw [hc] at hdr
    simp [processItem] at hdr
  | ok reply =>
    rw [hc] at hdr
    simp only [processItem, List.mem_map] at hdr
    obtain ⟨p, hp, rfl⟩ := hdr
    have hcount := countP_dispatchFrom_at remote (itemName i f) files 0 i f hf
    rw [Nat.zero_add] at hcount
    simpa [dispatchAll] using hcount

/-- Concrete run for claim C3: the detection `p1` of the second image
matches exactly one results entry. -/
theorem predictions_provenance_witness :
    (analyze sampleConfig ⟨[sampleImageA, sampleImageB], none⟩ sampleRemote).resultsOf.countP
      (provMatch 1 "b.png") = 1 :=
  predictions_provenance sampleConfig [sampleImageA, sampleImageB] none sampleRemote
    (by decide) (by decide) (by decide) ⟨"p1", 1, "b.png"⟩ (by decide)

/-- Claim C4: a request with zero files is answered 400 `No images
provided` whatever the configuration, and the 500 `API not configured`
rejection can only be issued on a request whose file list is
non-empty. -/
theorem no_images_before_config (cfg : Config) (area : Option String)
    (remote remoteB : Nat → UploadItem → RemoteCall) (req : AnalyzeRequest)
    (hconf : analyze cfg req remoteB = .jsonError 500 "API not configured"
      "Please set ROBOFLOW_API_KEY and ROBOFLOW_MODEL_ID in your .env file") :
    analyze cfg ⟨[], area⟩ remote =
      .jsonError 400 "No images provided" "Please upload at least one image file" ∧
    (analyze cfg ⟨[], area⟩ remote).status = 400 ∧
    req.files ≠ [] := by
  refine ⟨rfl, rfl, ?_⟩
  intro hempty
  obtain ⟨fs, ar⟩ := req
  simp only at hempty
  subst hempty
  simp [analyze, multerScan] at hconf

/-- Concrete run for claim C4: under a placeholder configuration the
empty request is still answered 400, while the same configuration does
issue the 500 on a request that carries a file. -/
theorem no_images_before_config_witness :
    analyze samplePlaceholderConfig ⟨[], none⟩ sampleRemote =
      .jsonError 400 "No images provided" "Please upload at least one image file" ∧
    (analyze samplePlaceholderConfig ⟨[], none⟩ sampleRemote).status = 400 ∧
    ([sampleImageA] : List UploadItem) ≠ [] := by
  have h := no_images_before_config samplePlaceholderConfig none sampleRemote sampleRemote
    ⟨[sampleImageA], none⟩ (by decide)
  exact ⟨h.1, h.2.1, h.2.2⟩

/-- Claim C5 counterexample: a request whose first file is a valid-type
image one byte over the size limit and whose second file is a non-image
text file contains a file of invalid declared type, yet is answered
`File too large`, not `Invalid file type` — multer consumes the parts in
order and the size overrun of the first file aborts the upload first. -/
theorem invalid_type_counterexample :
    isImageType sampleText = false ∧
    sampleText ∈ [sampleOversized, sampleText] ∧
    analyze sampleConfig ⟨[sampleOversized, sampleText], none⟩ sampleRemoteOk =
      .jsonError 400 "File too large" "Image must be less than 10MB" ∧
    analyze sampleConfig ⟨[sampleOversized, sampleText], none⟩ sampleRemoteOk ≠
      .jsonError 400 "Invalid file type" "Only image files are allowed" := by
  decide

/-- Claim C5 as amended: for every request containing a non-image file
such that every file before the first such file passes both the type
and the size check, the response is 400 `Invalid file type`; and the
response is computed without consulting the remote service at all (it
is the same under any two remote oracles). -/
theorem invalid_type_rejected (cfg : Config) (area : Option String)
    (remote remoteB : Nat → UploadItem → RemoteCall)
    (pre : List UploadItem) (bad : UploadItem) (rest : List UploadItem)
    (hpre : ∀ f ∈ pre, isImageType f = true ∧ withinSizeLimit f = true)
    (hbad : isImageType bad = false) :
    analyze cfg ⟨pre ++ bad :: rest, area⟩ remote =
      .jsonError 400 "Invalid file type" "Only image files are allowed" ∧
    (analyze cfg ⟨pre ++ bad :: rest, area⟩ remote).status = 400 ∧
    analyze cfg ⟨pre ++ bad :: rest, area⟩ remote =
      analyze cfg ⟨pre ++ bad :: rest, area⟩ remoteB := by
  have hscan : multerScan (pre ++ bad :: rest) = some .filterRejection := by
    rw [multerScan_append_valid pre (bad :: rest) hpre]
    simp [multerScan, hbad]
  have hval : ∀ rem : Nat → UploadItem → RemoteCall,
      analyze cfg ⟨pre ++ bad :: rest, area⟩ rem =
        .jsonError 400 "Invalid file type" "Only image files are allowed" := by
    intro rem
    simp [analyze, hscan]
  exact ⟨hval remote, by rw [hval remote]; rfl, by rw [hval remote, hval remoteB]⟩

/-- Concrete run for amended claim C5: a valid image followed by a text
file is rejected as `Invalid file type`, independently of the remote
oracle. -/
theorem invalid_type_rejected_witness :
    analyze sampleConfig ⟨[sampleImageA] ++ sampleText :: [], none⟩ sampleRemoteOk =
      .jsonError 400 "Invalid file type" "Only image files are allowed" ∧
    (analyze sampleConfig ⟨[sampleImageA] ++ sampleText :: [], none⟩ sampleRemoteOk).status = 400 ∧
    analyze sampleConfig ⟨[sampleImageA] ++ sampleText :: [], none⟩ sampleRemoteOk =
      analyze sampleConfig ⟨[sampleImageA] ++ sampleText :: [], none⟩ sampleRemote :=
  invalid_type_rejected sampleConfig none sampleRemoteOk sampleRemote
    [sampleImageA] sampleText [] (by decide) (by decide)

/-- Claim C8 counterexample: a single upload that is both oversized and
of non-image declared type is answered `Invalid file type`, not
`File too large` — the multer file filter decides on the declared type
before the body is buffered against the size limit. -/
theorem oversized_counterexample :
    withinSizeLimit sampleHugeText = false ∧
    analyze sampleConfig ⟨[sampleHugeText], none⟩ sampleRemoteOk =
      .jsonError 400 "Invalid file type" "Only image files are allowed" ∧
    analyze sampleConfig ⟨[sampleHugeText], none⟩ sampleRemoteOk ≠
      .jsonError 400 "File too large" "Image must be less than 10MB" := by
  decide

/-- Claim C8 as amended: for every request containing a file over the
10 MiB limit such that the first oversized file has an image declared
type and every file before it passes both checks, the response is 400
`File too large`, and it is computed without consulting the remote
service. -/
theorem oversized_rejected (cfg : Config) (area : Option String)
    (remote remoteB : Nat → UploadItem → RemoteCall)
    (pre : List UploadItem) (big : UploadItem) (rest : List UploadItem)
    (hpre : ∀ f ∈ pre, isImageType f = true ∧ withinSizeLimit f = true)
    (hbig : isImageType big = true) (hsize : withinSizeLimit big = false) :
    analyze cfg ⟨pre ++ big :: rest, area⟩ remote =
      .jsonError 400 "File too large" "Image must be less than 10MB" ∧
    (analyze cfg ⟨pre ++ big :: rest, area⟩ remote).status = 400 ∧
    analyze cfg ⟨pre ++ big :: rest, area⟩ remote =
      analyze cfg ⟨pre ++ big :: rest, area⟩ remoteB := by
  have hscan : multerScan (pre ++ big :: rest) = some .limitFileSize := by
    rw [multerScan_append_valid pre (big :: rest) hpre]
    simp [multerScan, hbig, hsize]
  have hval : ∀ rem : Nat → UploadItem → RemoteCall,
      analyze cfg ⟨pre ++ big :: rest, area⟩ rem =
        .jsonError 400 "File too large" "Image must be less than 10MB" := by
    intro rem
    simp [analyze, hscan]
  exact ⟨hval remote, by rw [hval remote]; rfl, by rw [hval remote, hval remoteB]⟩

/-- Concrete run for amended claim C8: a valid image followed by an
oversized image is rejected as `File too large`, independently of the
remote oracle. -/
theorem oversized_rejected_witness :
    analyze sampleConfig ⟨[sampleImageA] ++ sampleOversized :: [], none⟩ sampleRemoteOk =
      .jsonError 400 "File too large" "Image must be less than 10MB" ∧
    (analyze sampleConfig ⟨[sampleImageA] ++ sampleOversized :: [], none⟩ sampleRemoteOk).status = 400 ∧
    analyze sampleConfig ⟨[sampleImageA] ++ sampleOversized :: [], none⟩ sampleRemoteOk =
      analyze sampleConfig ⟨[sampleImageA] ++ sampleOversized :: [], none⟩ sampleRemote :=
  oversized_rejected sampleConfig none sampleRemoteOk sampleRemote
    [sampleImageA] sampleOversized [] (by decide) (by decide) (by decide)

/-- Claim C9: the 500 `API not configured` rejection also fires when the
credential or the model identifier still equals its literal placeholder
(`YOUR_KEY_HERE` / `YOUR_MODEL_ID_HERE`): any request with at least one
valid file under such a configuration is rejected 500 without the remote
service being consulted. -/
theorem placeholder_config_rejected (key modelId : String)
    (files : List UploadItem) (area : Option String)
    (remote remoteB : Nat → UploadItem → RemoteCall)
    (hscan : multerScan files = none) (hne : files ≠ [])
    (hph : key = "YOUR_KEY_HERE" ∨ modelId = "YOUR_MODEL_ID_HERE") :
    analyze ⟨key, modelId⟩ ⟨files, area⟩ remote = .jsonError 500 "API not configured"
      "Please set ROBOFLOW_API_KEY and ROBOFLOW_MODEL_ID in your .env file" ∧
    (analyze ⟨key, modelId⟩ ⟨files, area⟩ remote).status = 500 ∧
    analyze ⟨key, modelId⟩ ⟨files, area⟩ remote =
      analyze ⟨key, modelId⟩ ⟨files, area⟩ remoteB := by
  have hlen : ¬ files.length = 0 := by
    intro h
    exact hne (List.length_eq_zero.mp h)
  have hcfg : apiConfigured ⟨key, modelId⟩ = false := by
    rcases hph with rfl | rfl <;> simp [apiConfigured]
  have hval : ∀ rem : Nat → UploadItem → RemoteCall,
      analyze ⟨key, modelId⟩ ⟨files, area⟩ rem = .jsonError 500 "API not configured"
        "Please set ROBOFLOW_API_KEY and ROBOFLOW_MODEL_ID in your .env file" := by
    intro rem
    simp [analyze, hscan, hlen, hcfg]
  exact ⟨hval remote, by rw [hval remote]; rfl, by rw [hval remote, hval remoteB]⟩

/-- Concrete run for claim C9: the defaulted configuration obtained from
an absent key environment variable carries the key placeholder and is
rejected 500 on a one-image request. -/
theorem placeholder_config_rejected_witness :
    analyze (configFromEnv none (some "proj/3")) ⟨[sampleImageA], none⟩ sampleRemote =
      .jsonError 500 "API not configured"
        "Please set ROBOFLOW_API_KEY and ROBOFLOW_MODEL_ID in your .env file" ∧
    analyze (configFromEnv none (some "proj/3")) ⟨[sampleImageA], none⟩ sampleRemote =
      analyze (configFromEnv none (some "proj/3")) ⟨[sampleImageA], none⟩ sampleRemoteOk := by
  have h := placeholder_config_rejected "YOUR_KEY_HERE" "proj/3" [sampleImageA] none
    sampleRemote sampleRemoteOk (by decide) (by decide) (Or.inl rfl)
  exact ⟨h.1, h.2.2⟩

/-- A prefix of a list stays a prefix after extending the list. -/
lemma isPrefixOf_append (pat : List Char) :
    ∀ l b : List Char, pat.isPrefixOf l = true → pat.isPrefixOf (l ++ b) = true := by
  induction pat with
  | nil => intro l b _; cases l ++ b <;> rfl
  | cons p ps ih =>
    intro l b h
    cases l with
    | nil => exact absurd h (by simp [List.isPrefixOf])
    | cons c cs =>
      rw [List.cons_append]
      rw [show List.isPrefixOf (p :: ps) (c :: cs) = (p == c && List.isPrefixOf ps cs)
        from rfl] at h
      rw [show List.isPrefixOf (p :: ps) (c :: (cs ++ b)) =
        (p == c && List.isPrefixOf ps (cs ++ b)) from rfl]
      simp only [Bool.and_eq_true] at h ⊢
      exact ⟨h.1, ih cs b h.2⟩

/-- An infix occurrence survives appending on the right. -/
lemma hasInfix_append_left (pat : List Char) :
    ∀ a b : List Char, hasInfix pat a = true → hasInfix pat (a ++ b) = true := by
  intro a
  induction a with
  | nil =>
    intro b h
    have hpat : pat = [] := by
      simpa [hasInfix, List.isEmpty_iff] using h
    subst hpat
    cases b with
    | nil => rfl
    | cons c cs => simp [hasInfix, List.isPrefixOf]
  | cons c cs ih =>
    intro b h
    rw [hasInfix] at h
    rw [List.cons_append, hasInfix]
    simp only [Bool.or_eq_true] at h ⊢
    rcases h with hpre | htail
    · exact Or.inl (by
        have := isPrefixOf_append pat (c :: cs) b hpre
        simpa using this)
    · exact Or.inr (ih b htail)

/-- Appending strings appends their character lists. -/
lemma data_append (s t : String) : (s ++ t).data = s.data ++ t.data := by
  cases s
  cases t
  rfl

/-- Any pattern occurring in the fixed 403 template occurs in the full
enriched message, whatever the interpolated details. -/
lemma forbiddenMessage_mentions (m : Option String) (pat : String)
    (h : hasInfix pat.data forbiddenFixed.data = true) :
    mentions (forbiddenMessage m) pat = true := by
  unfold mentions forbiddenMessage
  rw [data_append]
  exact hasInfix_append_left pat.data forbiddenFixed.data (renderOpt m).data h

/-- The translated reply shape for every error that carries a remote
response: the effective status is kept, the user message is selected on
the status, and the raw extracted message rides along. -/
lemma handleOuterError_eq (e : CaughtError) (r : ErrResponse)
    (hr : e.response = some r) :
    handleOuterError e = .remoteError (effStatus r)
      (if effStatus r = 403 then some (forbiddenMessage (errorMessageOf e r))
       else if effStatus r = 401 then some unauthorizedMessage
       else if effStatus r = 404 then some notFoundMessage
       else errorMessageOf e r)
      (jsOrS r.statusText "Unknown error") (errorMessageOf e r) := by
  obtain ⟨resp, code, msg⟩ := e
  simp only at hr
  subst hr
  rfl

/-- Claim C6: a remote failure caught at request level is translated by
status — 401 to the credential message, 403 to the guidance message
(mentioning the API key, permission and the project-name/version-number
identifier format), 404 to the model-not-found message, and any other
status passes the extracted remote message through verbatim while the
reply keeps the remote status; a per-item failure inside the dispatcher
instead keeps its raw captured message unenriched. -/
theorem remote_error_translation (e : CaughtError) (r : ErrResponse)
    (hr : e.response = some r) :
    (handleOuterError e).status = effStatus r ∧
    (effStatus r = 401 → (handleOuterError e).messageOf = some unauthorizedMessage) ∧
    (effStatus r = 403 →
      (handleOuterError e).messageOf = some (forbiddenMessage (errorMessageOf e r)) ∧
      mentions (forbiddenMessage (errorMessageOf e r)) "API key" = true ∧
      mentions (forbiddenMessage (errorMessageOf e r)) "permission" = true ∧
      mentions (forbiddenMessage (errorMessageOf e r)) "project-name/version-number" = true) ∧
    (effStatus r = 404 → (handleOuterError e).messageOf = some notFoundMessage) ∧
    (effStatus r ≠ 401 → effStatus r ≠ 403 → effStatus r ≠ 404 →
      (handleOuterError e).messageOf = errorMessageOf e r) ∧
    ∀ i f msg, (processItem i f (.err msg)).error =
      some (jsOrS msg "Failed to process image") := by
  rw [handleOuterError_eq e r hr]
  refine ⟨rfl, ?_, ?_, ?_, ?_, fun i f msg => rfl⟩
  · intro h401
    simp [Resp.messageOf, h401]
  · intro h403
    refine ⟨by simp [Resp.messageOf, h403], ?_, ?_, ?_⟩
    · exact forbiddenMessage_mentions _ _ (by decide)
    · exact forbiddenMessage_mentions _ _ (by decide)
    · exact forbiddenMessage_mentions _ _ (by decide)
  · intro h404
    simp [Resp.messageOf, h404]
  · intro h1 h2 h3
    simp [Resp.messageOf, h1, h2, h3]

/-- Concrete run for claim C6: a 403 remote response yields the
enriched guidance message, and a per-item failure keeps its raw
message. -/
theorem remote_error_translation_witness :
    (handleOuterError ⟨some ⟨some 403, some "Forbidden", some ⟨none, some "denied"⟩⟩,
      none, some "req failed"⟩).status = 403 ∧
    (handleOuterError ⟨some ⟨some 403, some "Forbidden", some ⟨none, some "denied"⟩⟩,
      none, some "req failed"⟩).messageOf = some (forbiddenMessage (some "denied")) ∧
    mentions (forbiddenMessage (some "denied")) "permission" = true ∧
    (processItem 0 sampleImageA (.err (some "raw"))).error = some "raw" := by
  have h := remote_error_translation
    ⟨some ⟨some 403, some "Forbidden", some ⟨none, some "denied"⟩⟩, none, some "req failed"⟩
    ⟨some 403, some "Forbidden", some ⟨none, some "denied"⟩⟩ rfl
  have h403 := h.2.2.1 (by decide)
  refine ⟨by simpa using h.1, by simpa using h403.1, by simpa using h403.2.2.1, ?_⟩
  have := h.2.2.2.2.2 0 sampleImageA (some "raw")
  simpa [jsOrS] using this

/-- Claim C7: on a well-formed remote success reply the dispatcher
produces a success outcome (no error), defaults an absent predictions
field to the empty list and absent image metadata to null, stamps every
present detection with the index and effective filename of the item, and
keeps the provider payloads unchanged and in order. -/
theorem success_outcome_defensive (i : Nat) (f : UploadItem)
    (reply : RemoteReply) :
    (processItem i f (.ok reply)).error = none ∧
    (reply.predictions = none → (processItem i f (.ok reply)).predictions = []) ∧
    (reply.image = none →
      (processItem i f (.ok reply)).image_width = none ∧
      (processItem i f (.ok reply)).image_height = none) ∧
    (processItem i f (.ok reply)).predictions.map Detection.payload =
      reply.predictions.getD [] ∧
    ∀ d ∈ (processItem i f (.ok reply)).predictions,
      d.imageIndex = i ∧ d.imageName = itemName i f := by
  refine ⟨rfl, ?_, ?_, ?_, ?_⟩
  · intro h
    simp [processItem, h]
  · intro h
    simp [processItem, h, jsNumOrNull]
  · simp only [processItem, List.map_map]
    exact List.map_id _
  · intro d hd
    simp only [processItem, List.mem_map] at hd
    obtain ⟨p, hp, rfl⟩ := hd
    exact ⟨rfl, rfl⟩

/-- Concrete run for claim C7: a success reply with no predictions field
and no image metadata yields a success outcome with an empty detection
list and null dimensions. -/
theorem success_outcome_defensive_witness :
    (processItem 0 sampleImageA (.ok ⟨none, none⟩)).error = none ∧
    (processItem 0 sampleImageA (.ok ⟨none, none⟩)).predictions = [] ∧
    (processItem 0 sampleImageA (.ok ⟨none, none⟩)).image_width = none ∧
    (processItem 0 sampleImageA (.ok ⟨none, none⟩)).image_height = none := by
  have h := success_outcome_defensive 0 sampleImageA ⟨none, none⟩
  exact ⟨h.1, h.2.1 rfl, (h.2.2.1 rfl).1, (h.2.2.1 rfl).2⟩

/-- Claim C10: a null reported dimension does not distinguish absent
metadata from metadata present with value 0 — a provider width/height
of 0 is reported as null, the same as when the image field is absent. -/
theorem zero_dimensions_reported_null (i : Nat) (f : UploadItem)
    (reply replyAbsent : RemoteReply) (img : RemoteImage)
    (himg : reply.image = some img) (hw : img.width = some 0)
    (hh : img.height = some 0) (habsent : replyAbsent.image = none) :
    (processItem i f (.ok reply)).image_width = none ∧
    (processItem i f (.ok reply)).image_height = none ∧
    (processItem i f (.ok reply)).image_width =
      (processItem i f (.ok replyAbsent)).image_width ∧
    (processItem i f (.ok reply)).image_height =
      (processItem i f (.ok replyAbsent)).image_height := by
  simp [processItem, himg, hw, hh, habsent, jsNumOrNull]

/-- Concrete run for claim C10: a reply reporting 0 x 0 dimensions and a
reply with no image field produce identical null dimensions. -/
theorem zero_dimensions_reported_null_witness :
    (processItem 0 sampleImageA (.ok ⟨some ["q"], some ⟨some 0, some 0⟩⟩)).image_width = none ∧
    (processItem 0 sampleImageA (.ok ⟨some ["q"], some ⟨some 0, some 0⟩⟩)).image_height = none ∧
    (processItem 0 sampleImageA (.ok ⟨some ["q"], some ⟨some 0, some 0⟩⟩)).image_width =
      (processItem 0 sampleImageA (.ok ⟨some ["q"], none⟩)).image_width ∧
    (processItem 0 sampleImageA (.ok ⟨some ["q"], some ⟨some 0, some 0⟩⟩)).image_height =
      (processItem 0 sampleImageA (.ok ⟨some ["q"], none⟩)).image_height :=
  zero_dimensions_reported_null 0 sampleImageA ⟨some ["q"], some ⟨some 0, some 0⟩⟩
    ⟨some ["q"], none⟩ ⟨some 0, some 0⟩ rfl rfl rfl rfl

end SpecScan
